import Mathlib

/-!
Verification of the PNF_BOX_SEM CLI core: a shallow embedding of the
mode-driven command dispatch engine (`src/execute.rs`), the walk-up mode
hierarchy (`src/walkup.rs`), the dynamic command registry
(`src/dynamic_registry.rs`), configuration persistence (`src/run_config.rs`,
`src/cliconfig.rs`) and the command callbacks relevant to the checked
properties (`src/clicommands.rs`), together with theorems settling the
specified properties.
-/

namespace PnfBox

/-- The CLI operating modes, from `execute.rs` (`pub enum Mode`).
The two ACL variants carry the ACL name/number being edited.
(`walkup.rs` and one arm of the `exit` callback also mention a
`CryptoUserMode` variant that is absent from the enum declaration in
`execute.rs`; it is omitted here, matching the declaration site.) -/
inductive Mode where
  | UserMode
  | PrivilegedMode
  | ConfigMode
  | InterfaceMode
  | VlanMode
  | RouterConfigMode
  | ConfigStdNaclMode (acl : String)
  | ConfigExtNaclMode (acl : String)
  deriving DecidableEq, Repr

instance : BEq Mode := instBEqOfDecidableEq

/-- Rust's `str::starts_with`: `starts_with s t` models `s.starts_with(t)`.
(Spelled out over the character list so that it reduces in the kernel.) -/
def starts_with (s t : String) : Bool :=
  t.data.isPrefixOf s.data

/-- `find_unique_command` from `execute.rs` (lines 293-305): collect the
available commands that start with the typed token and return the sole
match, `none` on zero or several matches. -/
def find_unique_command (typed : String) (available_commands : List String) :
    Option String :=
  let matches0 := available_commands.filter (fun cmd => starts_with cmd typed)
  if matches0.length = 1 then matches0.head? else none

/-- `find_unique_subcommand` from `execute.rs` (lines 308-320): identical
logic applied to a command's `suggestions1` list. -/
def find_unique_subcommand (typed : String) (suggestions : List String) :
    Option String :=
  let matches0 := suggestions.filter (fun s => starts_with s typed)
  if matches0.length = 1 then matches0.head? else none

/-- The per-mode allow-list predicate used by `get_mode_commands` in
`execute.rs` (lines 142-290): for each mode, the filter applied to the
registry's keys. -/
def mode_filter (mode : Mode) (cmd : String) : Bool :=
  match mode with
  | .UserMode =>
      cmd == "enable" ||
      cmd == "ping" ||
      cmd == "help" ||
      cmd == "show" ||
      cmd == "clear" ||
      cmd == "reload" ||
      cmd == "exit"
  | .PrivilegedMode =>
      cmd == "configure" ||
      cmd == "ping" ||
      cmd == "exit" ||
      cmd == "write" ||
      cmd == "help" ||
      cmd == "show" ||
      cmd == "copy" ||
      cmd == "clock" ||
      cmd == "clear" ||
      cmd == "reload" ||
      cmd == "debug" ||
      cmd == "undebug" ||
      cmd == "ifconfig"
  | .ConfigMode =>
      cmd == "hostname" ||
      cmd == "interface" ||
      cmd == "ping" ||
      cmd == "exit" ||
      cmd == "clear" ||
      cmd == "tunnel" ||
      cmd == "access-list" ||
      cmd == "router" ||
      cmd == "virtual-template" ||
      cmd == "help" ||
      cmd == "write" ||
      cmd == "vlan" ||
      cmd == "ip" ||
      cmd == "service" ||
      cmd == "set" ||
      cmd == "enable" ||
      cmd == "ifconfig" ||
      cmd == "ntp" ||
      cmd == "no" ||
      cmd == "reload" ||
      cmd == "crypto"
  | .InterfaceMode =>
      cmd == "shutdown" ||
      cmd == "no" ||
      cmd == "exit" ||
      cmd == "clear" ||
      cmd == "help" ||
      cmd == "switchport" ||
      cmd == "write" ||
      cmd == "reload" ||
      cmd == "ip"
  | .VlanMode =>
      cmd == "name" ||
      cmd == "state" ||
      cmd == "clear" ||
      cmd == "exit" ||
      cmd == "help" ||
      cmd == "reload" ||
      cmd == "vlan"
  | .RouterConfigMode =>
      cmd == "network" ||
      cmd == "neighbor" ||
      cmd == "exit" ||
      cmd == "clear" ||
      cmd == "area" ||
      cmd == "passive-interface" ||
      cmd == "distance" ||
      cmd == "help" ||
      cmd == "reload" ||
      cmd == "default-information" ||
      cmd == "router-id"
  | .ConfigStdNaclMode _ =>
      cmd == "deny" ||
      cmd == "permit" ||
      cmd == "help" ||
      cmd == "exit" ||
      cmd == "clear" ||
      cmd == "reload" ||
      cmd == "ip"
  | .ConfigExtNaclMode _ =>
      cmd == "deny" ||
      cmd == "permit" ||
      cmd == "help" ||
      cmd == "exit" ||
      cmd == "clear" ||
      cmd == "reload" ||
      cmd == "ip"

/-- `get_mode_commands` from `execute.rs`: filter the registry's key set by
the current mode's allow-list. (`commands.keys()` of the `HashMap` is
modelled as the key list of an association-list registry.) -/
def get_mode_commands (keys : List String) (mode : Mode) : List String :=
  keys.filter (mode_filter mode)

/-- The 36 keys inserted into the static registry by
`build_command_registry` in `clicommands.rs`, in insertion order. -/
def registry_keys : List String :=
  ["enable", "configure", "interface", "exit", "reload", "debug", "undebug",
   "hostname", "ifconfig", "write", "copy", "help", "clock", "ntp", "ping",
   "show", "ip", "shutdown", "no", "router", "network", "neighbor", "area",
   "passive-interface", "distance", "default-information", "router-id",
   "clear", "access-list", "deny", "permit", "crypto", "set", "service",
   "tunnel", "virtual-template"]

/-! ### String primitives

The dispatcher uses Rust's `str::trim`, `str::ends_with`,
`str::trim_end_matches` and `str::split_whitespace`.  They are modelled
over the character list so that every definition reduces in the kernel
(whitespace is the ASCII whitespace class, which is what the CLI input
contains). -/

/-- Rust `char::is_whitespace`, restricted to the ASCII whitespace the
CLI ever sees. -/
def is_ws (c : Char) : Bool :=
  c == ' ' || c == '\t' || c == '\n' || c == '\x0d'

/-- Rust `str::trim`: remove leading and trailing whitespace. -/
def trim (s : String) : String :=
  String.mk (((s.data.dropWhile is_ws).reverse.dropWhile is_ws).reverse)

/-- Rust `str::ends_with(c)` for a single character. -/
def ends_with_char (s : String) (c : Char) : Bool :=
  s.data.reverse.head? == some c

/-- Rust `str::trim_end_matches(c)`: strip every trailing occurrence of
`c`. -/
def trim_end_matches_char (s : String) (c : Char) : String :=
  String.mk ((s.data.reverse.dropWhile (fun d => d == c)).reverse)

/-- Rust `str::split_whitespace`: the maximal non-empty runs between
whitespace. -/
def split_whitespace (s : String) : List String :=
  ((s.data.splitOnP is_ws).filter (fun l => !l.isEmpty)).map String.mk

/-! ### The static command registry

`Command` (from `execute.rs`) carries `name`, `description`,
`suggestions`, `suggestions1`, `options` and the `execute` callback.
The dispatch-relevant descriptor fields are modelled here; the
callbacks, which close over heterogeneous global state, are embedded
individually below for the commands the properties touch. -/

structure CommandInfo where
  name : String
  suggestions1 : Option (List String)
  deriving DecidableEq, Repr

/-- The static registry built by `build_command_registry` in
`clicommands.rs`: an association list from command key to descriptor, in
insertion order, carrying each command's `name` and `suggestions1`
exactly as in the source. -/
def command_registry : List (String × CommandInfo) :=
  [("enable", ⟨"enable", none⟩),
   ("configure", ⟨"configure terminal", some ["terminal", "user"]⟩),
   ("interface", ⟨"interface", none⟩),
   ("exit", ⟨"exit", none⟩),
   ("reload", ⟨"reload", none⟩),
   ("debug", ⟨"debug", some ["all"]⟩),
   ("undebug", ⟨"undebug", some ["all"]⟩),
   ("hostname", ⟨"hostname", none⟩),
   ("ifconfig", ⟨"ifconfig", none⟩),
   ("write", ⟨"write memory", some ["memory"]⟩),
   ("copy", ⟨"copy", some ["running-config"]⟩),
   ("help", ⟨"help", none⟩),
   ("clock", ⟨"clock set", some ["set"]⟩),
   ("ntp", ⟨"ntp", some ["server", "master", "authenticate",
      "authentication-key", "trusted-key"]⟩),
   ("ping", ⟨"ping", none⟩),
   ("show", ⟨"show", some ["running-config", "startup-config",
      "access-lists", "ip", "version", "ntp", "processes", "clock",
      "vlan", "interfaces", "uptime", "login", "crypto key",
      "crypto certificate", "crypto dynamic-map", "crypto map",
      "crypto engine"]⟩),
   ("ip", ⟨"ip", some ["address", "ospf", "route", "domain-name",
      "access-list"]⟩),
   ("shutdown", ⟨"shutdown", none⟩),
   ("no", ⟨"no shutdown", some ["shutdown", "ntp", "crypto dynamic-map",
      "crypto engine accelerator",
      "crypto ipsec security-association lifetime",
      "crypto ipsec transform-set", "crypto map"]⟩),
   ("router", ⟨"router", some ["ospf"]⟩),
   ("network", ⟨"network", none⟩),
   ("neighbor", ⟨"neighbor", none⟩),
   ("area", ⟨"area", none⟩),
   ("passive-interface", ⟨"passive-interface", none⟩),
   ("distance", ⟨"distance", none⟩),
   ("default-information", ⟨"default-information", some ["originate"]⟩),
   ("router-id", ⟨"router-id", none⟩),
   ("clear", ⟨"clear", none⟩),
   ("access-list", ⟨"access-list", none⟩),
   ("deny", ⟨"deny", none⟩),
   ("permit", ⟨"permit", none⟩),
   ("crypto", ⟨"crypto", some ["ipsec", "key", "certificate",
      "dynamic-map", "engine accelerator",
      "ipsec security-association lifetime", "ipsec transform-set",
      "map", "map local-address"]⟩),
   ("set", ⟨"set", some ["transform-set"]⟩),
   ("service", ⟨"service", some ["password-encryption"]⟩),
   ("tunnel", ⟨"tunnel", some ["mode", "source", "destination",
      "protection"]⟩),
   ("virtual-template", ⟨"virtual-template", none⟩)]

/-! ### The dispatcher (`execute_command`, `execute.rs` lines 132-591) -/

/-- The observable control-flow outcome of one `execute_command` call.
Every constructor other than `invoke` corresponds to a source path that
only prints (or, for `indexPanic`, to the out-of-bounds `parts[0]`
access on empty token lists). -/
inductive DispatchOutcome where
  | help
  | indexPanic
  | unknown (tok : String)
  | missingDescriptor (key : String)
  | incomplete (key : String)
  | badSub (key : String) (tok : String)
  | invoke (key : String) (args : List String)
  deriving DecidableEq, Repr

/-- The execution path of `execute_command` after tokenisation
(`execute.rs` lines 548-591): resolve the first token by unique prefix
against the mode's visible set, look the resolved key up in the
registry, then apply the `suggestions1` argument discipline. -/
def exec_path (commands : List (String × CommandInfo)) (mode : Mode)
    (cmd_tok : String) (rest : List String) : DispatchOutcome :=
  match find_unique_command cmd_tok
      (get_mode_commands (commands.map Prod.fst) mode) with
  | none => .unknown cmd_tok
  | some cmd_key =>
    match commands.lookup cmd_key with
    | none => .missingDescriptor cmd_key
    | some cmd =>
      match cmd.suggestions1 with
      | some suggestions =>
        match rest with
        | [] => .incomplete cmd_key
        | [tok] =>
          if suggestions.isEmpty then
            .invoke cmd_key rest
          else
            match find_unique_subcommand tok suggestions with
            | some matched_subcommand => .invoke cmd_key [matched_subcommand]
            | none => .badSub cmd_key tok
        | _ => .invoke cmd_key rest
      | none => .invoke cmd_key rest

/-- The command-resolution logic of `execute_command`: trim the input,
recognise the trailing `?` (help path, which returns before any
execution), tokenise, resolve through `exec_path`.  Literal translation
of `execute.rs` lines 132-139, 323-325, 328-546 (collapsed to the
single `help` outcome, the branch only prints) and 548-591. -/
def execute_command_outcome (commands : List (String × CommandInfo))
    (input : String) (mode : Mode) : DispatchOutcome :=
  let normalized := trim input
  let showing_suggestions := ends_with_char normalized '?'
  let normalized :=
    if showing_suggestions then trim_end_matches_char normalized '?'
    else normalized
  let parts := split_whitespace normalized
  if showing_suggestions then
    .help
  else
    match parts with
    | [] => .indexPanic
    | cmd_tok :: rest => exec_path commands mode cmd_tok rest

/-- State-passing wrapper for `execute_command`: a callback is run
exactly on the `invoke` outcome; every other source path only prints,
leaving the session state untouched.  `σ` is the whole mutable state
(context plus global stores); `exec` is the semantics of the registered
callbacks. -/
def execute_command_step {σ : Type} (commands : List (String × CommandInfo))
    (exec : String → List String → σ → σ)
    (mode_of : σ → Mode) (input : String) (s : σ) : σ × DispatchOutcome :=
  match execute_command_outcome commands input (mode_of s) with
  | .invoke key args => (exec key args s, .invoke key args)
  | o => (s, o)

/-! ### The driver loop (`main.rs` lines 140-177) -/

/-- The whole mutable program state visible to one REPL iteration: the
static registry built at startup, the dynamic-overlay globals
(`DYNAMIC_COMMANDS` key set and `MODE_PERMISSIONS` from
`dynamic_registry.rs`) and the session context's current mode. -/
structure ProgramState where
  static_commands : List (String × CommandInfo)
  dynamic_commands : List String
  mode_permissions : List (String × List Mode)
  current_mode : Mode
  deriving Repr

/-- What one iteration of the `main` loop does with one line. -/
inductive ReplAction where
  | skip
  | exitCli
  | dispatched (o : DispatchOutcome)
  deriving DecidableEq, Repr

/-- One iteration of the REPL in `main.rs`: trim the line, skip it when
empty, `break` on the literal `exit cli`, otherwise hand it to
`execute_command` with the static registry and the current mode. -/
def repl_line (ps : ProgramState) (buffer : String) : ReplAction :=
  let input := trim buffer
  if input == "" then .skip
  else if input == "exit cli" then .exitCli
  else .dispatched (execute_command_outcome ps.static_commands input ps.current_mode)

/-! ### The walk-up hierarchy (`walkup.rs`) -/

/-- `ModeHierarchy::is_command_allowed_in_mode` from `walkup.rs` (lines
101-198).  (The source also lists an arm for a `CryptoUserMode` variant
that the `Mode` enum in `execute.rs` does not declare; that arm matches
no declared variant and is omitted.) -/
def is_command_allowed_in_mode (command : String) (mode : Mode) : Bool :=
  match mode with
  | .UserMode =>
      command == "enable" ||
      command == "ping" ||
      command == "help" ||
      command == "show" ||
      command == "clear" ||
      command == "reload" ||
      command == "exit"
  | .PrivilegedMode =>
      command == "configure" ||
      command == "ping" ||
      command == "exit" ||
      command == "write" ||
      command == "help" ||
      command == "show" ||
      command == "copy" ||
      command == "clock" ||
      command == "clear" ||
      command == "reload" ||
      command == "debug" ||
      command == "undebug" ||
      command == "ifconfig"
  | .ConfigMode =>
      command == "hostname" ||
      command == "interface" ||
      command == "ping" ||
      command == "exit" ||
      command == "clear" ||
      command == "tunnel" ||
      command == "access-list" ||
      command == "router" ||
      command == "virtual-template" ||
      command == "help" ||
      command == "write" ||
      command == "vlan" ||
      command == "ip" ||
      command == "service" ||
      command == "set" ||
      command == "enable" ||
      command == "ifconfig" ||
      command == "ntp" ||
      command == "no" ||
      command == "reload" ||
      command == "crypto"
  | .InterfaceMode =>
      command == "shutdown" ||
      command == "no" ||
      command == "exit" ||
      command == "clear" ||
      command == "help" ||
      command == "switchport" ||
      command == "write" ||
      command == "reload" ||
      command == "ip"
  | .VlanMode =>
      command == "name" ||
      command == "state" ||
      command == "clear" ||
      command == "exit" ||
      command == "help" ||
      command == "reload" ||
      command == "vlan"
  | .RouterConfigMode =>
      command == "network" ||
      command == "neighbor" ||
      command == "exit" ||
      command == "clear" ||
      command == "area" ||
      command == "passive-interface" ||
      command == "distance" ||
      command == "help" ||
      command == "reload" ||
      command == "default-information" ||
      command == "router-id"
  | .ConfigStdNaclMode _ =>
      command == "deny" ||
      command == "permit" ||
      command == "help" ||
      command == "exit" ||
      command == "clear" ||
      command == "reload" ||
      command == "ip"
  | .ConfigExtNaclMode _ =>
      command == "deny" ||
      command == "permit" ||
      command == "help" ||
      command == "exit" ||
      command == "clear" ||
      command == "reload" ||
      command == "ip"

/-- The `parent_map` built by `ModeHierarchy::new` (`walkup.rs` lines
35-52): only the two ACL modes with payload `"default"` are keys. -/
def parent_map : List (Mode × Option Mode) :=
  [(.UserMode, none),
   (.PrivilegedMode, some .UserMode),
   (.ConfigMode, some .PrivilegedMode),
   (.InterfaceMode, some .ConfigMode),
   (.VlanMode, some .ConfigMode),
   (.RouterConfigMode, some .ConfigMode),
   (.ConfigStdNaclMode "default", some .ConfigMode),
   (.ConfigExtNaclMode "default", some .ConfigMode)]

/-- `get_mode_commands_FNC` from `dynamic_registry.rs` (lines 111-130):
the dynamically-registered command names whose `MODE_PERMISSIONS` entry
lists the mode (a command with no permission entry is not available). -/
def get_mode_commands_FNC (dyn_keys : List String)
    (permissions : List (String × List Mode)) (mode : Mode) : List String :=
  dyn_keys.filter (fun cmd_name =>
    match permissions.lookup cmd_name with
    | some allowed_modes => allowed_modes.contains mode
    | none => false)

/-- The test applied at each mode of the walk (`walkup.rs` lines 70-72):
the static legality predicate, or membership in the mode's
dynamically-registered command set. -/
def walk_pred (dyn_keys : List String)
    (permissions : List (String × List Mode)) (command : String)
    (m : Mode) : Bool :=
  is_command_allowed_in_mode command m ||
  (get_mode_commands_FNC dyn_keys permissions m).contains command

/-- `self.parent_map.get(&current_mode)` for the concrete map built by
`ModeHierarchy::new`, as a total function on `Mode` (`HashMap` equality
is structural, so an ACL mode is a key exactly when its payload is
`"default"`). -/
def parent_map_get : Mode → Option (Option Mode)
  | .UserMode => some none
  | .PrivilegedMode => some (some .UserMode)
  | .ConfigMode => some (some .PrivilegedMode)
  | .InterfaceMode => some (some .ConfigMode)
  | .VlanMode => some (some .ConfigMode)
  | .RouterConfigMode => some (some .ConfigMode)
  | .ConfigStdNaclMode s =>
      if s = "default" then some (some .ConfigMode) else none
  | .ConfigExtNaclMode s =>
      if s = "default" then some (some .ConfigMode) else none

/-- The loop body of `ModeHierarchy::walkup_find_command` (`walkup.rs`
lines 65-90), with explicit fuel standing for the loop iterations: test
`walk_pred` at the current mode; on failure look the current mode up in
the parent map (a missing key — any ACL mode whose payload is not
`"default"` — ends the walk with `none`, exactly as
`self.parent_map.get(&current_mode)` returning `None` does) and
continue at the parent. -/
def walkup_aux (dyn_keys : List String)
    (permissions : List (String × List Mode)) (fuel : Nat)
    (current_mode : Mode) (command : String) : Option Mode :=
  match fuel with
  | 0 => none
  | fuel + 1 =>
    if walk_pred dyn_keys permissions command current_mode then
      some current_mode
    else
      match parent_map_get current_mode with
      | none => none
      | some none => none
      | some (some parent_mode) =>
          walkup_aux dyn_keys permissions fuel parent_mode command

/-- `walkup_find_command`: the loop terminates within the hierarchy
depth, which is at most 4 modes on every chain of `parent_map`, so fuel
4 computes the loop's result (fuel-irrelevance above 4 is proved in the
claim theorem). -/
def walkup_find_command (dyn_keys : List String)
    (permissions : List (String × List Mode)) (initial_mode : Mode)
    (command : String) : Option Mode :=
  walkup_aux dyn_keys permissions 4 initial_mode command

/-- The chain of modes the source walk actually visits, starting at the
given mode: the ancestor chain of `parent_map` for its keys, and the
mode alone for ACL modes whose payload is not `"default"` (those are
not keys of `parent_map`, so the walk stops after testing them). -/
def walk_chain : Mode → List Mode
  | .UserMode => [.UserMode]
  | .PrivilegedMode => [.PrivilegedMode, .UserMode]
  | .ConfigMode => [.ConfigMode, .PrivilegedMode, .UserMode]
  | .InterfaceMode => [.InterfaceMode, .ConfigMode, .PrivilegedMode, .UserMode]
  | .VlanMode => [.VlanMode, .ConfigMode, .PrivilegedMode, .UserMode]
  | .RouterConfigMode =>
      [.RouterConfigMode, .ConfigMode, .PrivilegedMode, .UserMode]
  | .ConfigStdNaclMode s =>
      if s = "default" then
        [.ConfigStdNaclMode s, .ConfigMode, .PrivilegedMode, .UserMode]
      else [.ConfigStdNaclMode s]
  | .ConfigExtNaclMode s =>
      if s = "default" then
        [.ConfigExtNaclMode s, .ConfigMode, .PrivilegedMode, .UserMode]
      else [.ConfigExtNaclMode s]

/-! ### IPv4 addresses

`clicommands.rs` parses interface and route arguments with
`Ipv4Addr::from_str`; the address is four dot-separated decimal octets,
each 0-255 without leading zeros. -/

/-- An IPv4 address as its four octets. -/
structure Ipv4 where
  a : Nat
  b : Nat
  c : Nat
  d : Nat
  deriving DecidableEq, Repr

/-- Decimal value of a digit run. -/
def digits_to_nat (l : List Char) : Nat :=
  l.foldl (fun acc c => acc * 10 + (c.toNat - '0'.toNat)) 0

/-- One octet of `Ipv4Addr::from_str`: a non-empty run of at most three
digits, no leading zero except `"0"` itself, value at most 255. -/
def parse_octet (l : List Char) : Option Nat :=
  if l.isEmpty || !(l.all Char.isDigit) || l.length > 3 then none
  else if l.head? == some '0' && l.length > 1 then none
  else
    let n := digits_to_nat l
    if n ≤ 255 then some n else none

/-- `Ipv4Addr::from_str`. -/
def parse_ipv4 (s : String) : Option Ipv4 :=
  match s.data.splitOn '.' with
  | [a, b, c, d] =>
    match parse_octet a, parse_octet b, parse_octet c, parse_octet d with
    | some a, some b, some c, some d => some ⟨a, b, c, d⟩
    | _, _, _, _ => none
  | _ => none

/-- `Ipv4Addr`'s `Display`, used by `to_string()` on routes. -/
def ipv4_to_string (ip : Ipv4) : String :=
  Nat.repr ip.a ++ "." ++ Nat.repr ip.b ++ "." ++ Nat.repr ip.c ++ "."
    ++ Nat.repr ip.d

/-! ### Command callbacks relevant to the checked properties -/

/-- Result of one callback invocation.  `panicked` marks a path where
the source aborts the process through `.expect(...)` instead of
returning `Err`. -/
inductive ExecResult where
  | ok
  | err (msg : String)
  | panicked (msg : String)
  deriving DecidableEq, Repr

/-- `HashMap::insert`: replace the value at the key, or add the entry. -/
def map_insert {α : Type} (table : List (String × α)) (k : String)
    (v : α) : List (String × α) :=
  match table with
  | [] => [(k, v)]
  | (k0, v0) :: tl =>
      if k0 == k then (k, v) :: tl else (k0, v0) :: map_insert tl k v

/-- The route table `ROUTE_TABLE`: destination to (netmask, next hop or
exit interface), from `network_config.rs`. -/
abbrev RouteTable : Type := List (String × (Ipv4 × String))

/-- The `("route", Mode::ConfigMode)` arm of the `ip` callback
(`clicommands.rs` lines 1665-1706), reached with `args[0] = "route"`.
With one argument it prints usage and succeeds; with four it parses
destination and netmask through `.expect` (a parse failure aborts — the
`panicked` result), then inserts either a next-hop or an exit-interface
route; with five it also parses `args[4]` and stores `args[2]` as the
exit interface alongside the next hop; any other arity returns `Err`. -/
def ip_route_arm (args : List String) (route_table : RouteTable) :
    RouteTable × ExecResult :=
  match args with
  | [_] => (route_table, .ok)
  | [_, a1, a2, a3] =>
    match parse_ipv4 a1 with
    | none => (route_table, .panicked "Invalid IP address format")
    | some destination_ip =>
      match parse_ipv4 a2 with
      | none => (route_table, .panicked "Invalid IP address format")
      | some netmask =>
        match parse_ipv4 a3 with
        | some next_hop =>
            (map_insert route_table (ipv4_to_string destination_ip)
              (netmask, ipv4_to_string next_hop), .ok)
        | none =>
            (map_insert route_table (ipv4_to_string destination_ip)
              (netmask, a3), .ok)
  | [_, a1, a2, _, a4] =>
    match parse_ipv4 a1 with
    | none => (route_table, .panicked "Invalid IP address format")
    | some destination_ip =>
      match parse_ipv4 a2 with
      | none => (route_table, .panicked "Invalid IP address format")
      | some netmask =>
        match parse_ipv4 a4 with
        | none => (route_table, .panicked "Invalid IP address format")
        | some next_hop =>
            (map_insert route_table (ipv4_to_string destination_ip)
              (netmask, a2 ++ " " ++ ipv4_to_string next_hop), .ok)
  | _ =>
    (route_table,
     .err "Usage: ip route <ip-address> <netmask> <next-hop | exit-interface> <next-hop>")

/-- The pieces of `CliContext` (from `cliconfig.rs`) that the checked
callbacks read or write. -/
structure CliContextM where
  current_mode : Mode
  prompt : String
  selected_interface : Option String
  deriving DecidableEq, Repr

/-- The `shutdown` callback (`clicommands.rs` lines 1760-1801).  It
takes the context and the two stores it touches (`IP_ADDRESS_STATE`,
`STATUS_MAP`); outside `InterfaceMode`, or with no interface selected,
it returns `Err` without touching anything; otherwise it marks the
selected interface administratively down in `STATUS_MAP` when the
interface exists in `IP_ADDRESS_STATE` (the callback never writes the
context). -/
def shutdown_execute (_args : List String) (context : CliContextM)
    (ip_address_state : List (String × (Ipv4 × Ipv4)))
    (status_map : List (String × Bool)) :
    ExecResult × CliContextM × List (String × (Ipv4 × Ipv4)) ×
      List (String × Bool) :=
  match context.current_mode with
  | .InterfaceMode =>
    match context.selected_interface with
    | some interface =>
      match ip_address_state.lookup interface with
      | some _ =>
          (.ok, context, ip_address_state,
           map_insert status_map interface false)
      | none => (.ok, context, ip_address_state, status_map)
    | none =>
      (.err "No interface selected. Use the 'interface' command first.",
       context, ip_address_state, status_map)
  | _ =>
    (.err "The 'shutdown' command is only available in Interface Configuration mode.",
     context, ip_address_state, status_map)

/-! ### Configuration persistence (`cliconfig.rs`, `cryptocommands.rs`,
`run_config.rs`)

`save_config` serialises the `CliConfig` aggregate with
`serde_json::to_string_pretty` and `load_config` reads it back with
`serde_json::from_str`, falling back to `CliConfig::default()` when the
file is missing, unreadable or unparsable.  The derived serde
instances are modelled as encode/decode over a JSON value tree:
structs become objects keyed by field name, `Option` becomes `null` or
the value (and an absent field decodes to `None`), maps become
objects, vectors arrays. -/

/-- JSON values (the numeric fields of the aggregate are `u32`). -/
inductive Json where
  | null
  | bool (b : Bool)
  | num (n : Nat)
  | str (s : String)
  | arr (l : List Json)
  | obj (l : List (String × Json))

/-- `DynamicMapEntry` from `cryptocommands.rs`. -/
structure DynamicMapEntry where
  name : String
  seq_num : Nat
  deriving DecidableEq, Repr

/-- `IPSecLifetime` from `cryptocommands.rs`. -/
structure IPSecLifetime where
  seconds : Option Nat
  kilobytes : Option Nat
  deriving DecidableEq, Repr

/-- `CryptoMapEntry` from `cryptocommands.rs`. -/
structure CryptoMapEntry where
  name : String
  seq_num : Nat
  interface_id : Option String
  deriving DecidableEq, Repr

/-- `CliConfig` from `cliconfig.rs`, fields in declaration order
(`HashMap` fields are association lists). -/
structure CliConfig where
  running_config : Option String
  startup_config : Option String
  hostname : String
  crypto_ipsec_profile : Option String
  transform_sets : Option (List String)
  tunnel_mode : Option String
  tunnel_source : Option String
  tunnel_destination : Option String
  tunnel_protection_profile : Option String
  virtual_template : Option String
  enable_password : Option String
  enable_secret : Option String
  encrypted_password : Option String
  encrypted_secret : Option String
  password_encryption : Bool
  domain_name : Option String
  last_written : Option String
  crypto_keys : List (String × String)
  certificates : List (String × String)
  crypto_dynamic_maps : List (String × DynamicMapEntry)
  crypto_engine_accelerator : Option Nat
  crypto_ipsec_lifetime : IPSecLifetime
  crypto_transform_sets : List (String × List String)
  crypto_maps : List (String × CryptoMapEntry)
  crypto_local_addresses : List (String × String)
  deriving DecidableEq, Repr

/-- `IPSecLifetime::default` from `cryptocommands.rs`. -/
def IPSecLifetime.default : IPSecLifetime := ⟨none, none⟩

/-- `CliConfig::default` from `cliconfig.rs` (lines 54-103). -/
def CliConfig.default : CliConfig where
  running_config := none
  startup_config := none
  hostname := "SEM"
  crypto_ipsec_profile := none
  transform_sets := none
  tunnel_mode := none
  tunnel_source := none
  tunnel_destination := none
  tunnel_protection_profile := none
  virtual_template := none
  enable_password := none
  enable_secret := none
  encrypted_password := none
  encrypted_secret := none
  password_encryption := false
  domain_name := none
  last_written := none
  crypto_keys := []
  certificates := []
  crypto_dynamic_maps := []
  crypto_engine_accelerator := none
  crypto_ipsec_lifetime := IPSecLifetime.default
  crypto_transform_sets := []
  crypto_maps := []
  crypto_local_addresses := []

/-- serde: `Option<T>` serialises to `null` or the value. -/
def enc_opt {α : Type} (f : α → Json) : Option α → Json
  | none => .null
  | some x => f x

/-- serde: an `Option<T>` field decodes `null` to `None`, anything else
through the value decoder. -/
def dec_opt {α : Type} (f : Json → Option α) : Json → Option (Option α)
  | .null => some none
  | j => (f j).map some

def dec_str : Json → Option String
  | .str s => some s
  | _ => none

def dec_bool : Json → Option Bool
  | .bool b => some b
  | _ => none

def dec_num : Json → Option Nat
  | .num n => some n
  | _ => none

/-- serde: `Vec<T>` is an array. -/
def enc_list {α : Type} (f : α → Json) (l : List α) : Json :=
  .arr (l.map f)

def dec_list {α : Type} (f : Json → Option α) : Json → Option (List α)
  | .arr l => l.mapM f
  | _ => none

/-- serde: `HashMap<String, T>` is an object. -/
def enc_smap {α : Type} (f : α → Json) (m : List (String × α)) : Json :=
  .obj (m.map (fun p => (p.1, f p.2)))

def dec_smap {α : Type} (f : Json → Option α) : Json → Option (List (String × α))
  | .obj l => l.mapM (fun p => (f p.2).map (fun v => (p.1, v)))
  | _ => none

def enc_dynamic_map_entry (e : DynamicMapEntry) : Json :=
  .obj [("name", .str e.name), ("seq_num", .num e.seq_num)]

def dec_dynamic_map_entry (j : Json) : Option DynamicMapEntry :=
  match j with
  | .obj l =>
    match (l.lookup "name").bind dec_str, (l.lookup "seq_num").bind dec_num with
    | some name, some seq => some ⟨name, seq⟩
    | _, _ => none
  | _ => none

def enc_ipsec_lifetime (e : IPSecLifetime) : Json :=
  .obj [("seconds", enc_opt Json.num e.seconds),
        ("kilobytes", enc_opt Json.num e.kilobytes)]

/-- An absent `Option` field decodes to `None` (serde's implicit
default for `Option` fields). -/
def dec_opt_field {α : Type} (l : List (String × Json)) (key : String)
    (f : Json → Option α) : Option (Option α) :=
  match l.lookup key with
  | none => some none
  | some j => dec_opt f j

def dec_ipsec_lifetime (j : Json) : Option IPSecLifetime :=
  match j with
  | .obj l =>
    match dec_opt_field l "seconds" dec_num,
        dec_opt_field l "kilobytes" dec_num with
    | some s, some k => some ⟨s, k⟩
    | _, _ => none
  | _ => none

def enc_crypto_map_entry (e : CryptoMapEntry) : Json :=
  .obj [("name", .str e.name), ("seq_num", .num e.seq_num),
        ("interface_id", enc_opt Json.str e.interface_id)]

def dec_crypto_map_entry (j : Json) : Option CryptoMapEntry :=
  match j with
  | .obj l =>
    match (l.lookup "name").bind dec_str,
        (l.lookup "seq_num").bind dec_num,
        dec_opt_field l "interface_id" dec_str with
    | some name, some seq, some iid => some ⟨name, seq, iid⟩
    | _, _, _ => none
  | _ => none

/-- The derived `Serialize` for `CliConfig`: one object, fields in
declaration order. -/
def enc_cli_config (c : CliConfig) : Json :=
  .obj
    [("running_config", enc_opt Json.str c.running_config),
     ("startup_config", enc_opt Json.str c.startup_config),
     ("hostname", .str c.hostname),
     ("crypto_ipsec_profile", enc_opt Json.str c.crypto_ipsec_profile),
     ("transform_sets", enc_opt (enc_list Json.str) c.transform_sets),
     ("tunnel_mode", enc_opt Json.str c.tunnel_mode),
     ("tunnel_source", enc_opt Json.str c.tunnel_source),
     ("tunnel_destination", enc_opt Json.str c.tunnel_destination),
     ("tunnel_protection_profile", enc_opt Json.str c.tunnel_protection_profile),
     ("virtual_template", enc_opt Json.str c.virtual_template),
     ("enable_password", enc_opt Json.str c.enable_password),
     ("enable_secret", enc_opt Json.str c.enable_secret),
     ("encrypted_password", enc_opt Json.str c.encrypted_password),
     ("encrypted_secret", enc_opt Json.str c.encrypted_secret),
     ("password_encryption", .bool c.password_encryption),
     ("domain_name", enc_opt Json.str c.domain_name),
     ("last_written", enc_opt Json.str c.last_written),
     ("crypto_keys", enc_smap Json.str c.crypto_keys),
     ("certificates", enc_smap Json.str c.certificates),
     ("crypto_dynamic_maps", enc_smap enc_dynamic_map_entry c.crypto_dynamic_maps),
     ("crypto_engine_accelerator", enc_opt Json.num c.crypto_engine_accelerator),
     ("crypto_ipsec_lifetime", enc_ipsec_lifetime c.crypto_ipsec_lifetime),
     ("crypto_transform_sets", enc_smap (enc_list Json.str) c.crypto_transform_sets),
     ("crypto_maps", enc_smap enc_crypto_map_entry c.crypto_maps),
     ("crypto_local_addresses", enc_smap Json.str c.crypto_local_addresses)]

/-- The derived `Deserialize` for `CliConfig`: required fields must be
present with the right shape, `Option` fields may be absent or `null`,
unknown fields are ignored. -/
def dec_cli_config (j : Json) : Option CliConfig :=
  match j with
  | .obj l =>
    match dec_opt_field l "running_config" dec_str,
        dec_opt_field l "startup_config" dec_str,
        (l.lookup "hostname").bind dec_str,
        dec_opt_field l "crypto_ipsec_profile" dec_str,
        dec_opt_field l "transform_sets" (dec_list dec_str),
        dec_opt_field l "tunnel_mode" dec_str,
        dec_opt_field l "tunnel_source" dec_str,
        dec_opt_field l "tunnel_destination" dec_str,
        dec_opt_field l "tunnel_protection_profile" dec_str,
        dec_opt_field l "virtual_template" dec_str,
        dec_opt_field l "enable_password" dec_str,
        dec_opt_field l "enable_secret" dec_str,
        dec_opt_field l "encrypted_password" dec_str,
        dec_opt_field l "encrypted_secret" dec_str,
        (l.lookup "password_encryption").bind dec_bool,
        dec_opt_field l "domain_name" dec_str,
        dec_opt_field l "last_written" dec_str,
        (l.lookup "crypto_keys").bind (dec_smap dec_str),
        (l.lookup "certificates").bind (dec_smap dec_str),
        (l.lookup "crypto_dynamic_maps").bind (dec_smap dec_dynamic_map_entry),
        dec_opt_field l "crypto_engine_accelerator" dec_num,
        (l.lookup "crypto_ipsec_lifetime").bind dec_ipsec_lifetime,
        (l.lookup "crypto_transform_sets").bind (dec_smap (dec_list dec_str)),
        (l.lookup "crypto_maps").bind (dec_smap dec_crypto_map_entry),
        (l.lookup "crypto_local_addresses").bind (dec_smap dec_str) with
    | some v1, some v2, some v3, some v4, some v5, some v6, some v7,
      some v8, some v9, some v10, some v11, some v12, some v13, some v14,
      some v15, some v16, some v17, some v18, some v19, some v20,
      some v21, some v22, some v23, some v24, some v25 =>
        some (CliConfig.mk v1 v2 v3 v4 v5 v6 v7 v8 v9 v10 v11 v12 v13
          v14 v15 v16 v17 v18 v19 v20 v21 v22 v23 v24 v25)
    | _, _, _, _, _, _, _, _, _, _, _, _, _, _, _, _, _, _, _, _, _, _,
      _, _, _ => none
  | _ => none

/-- `save_config` (`run_config.rs` lines 29-37): serialise the
aggregate and write it to `startup-config.json`; the written document
is the serialisation of the aggregate. -/
def save_config (config : CliConfig) : Json :=
  enc_cli_config config

/-- `load_config` (`run_config.rs` lines 55-65): the file contents
(`none` when the file is missing or unreadable, `some j` for a
well-formed JSON document; a file that is not JSON at all also decodes
through no constructor and is covered by the `none` case of the parse).
Any failure falls back to `CliConfig::default()`. -/
def load_config (file : Option Json) : CliConfig :=
  match file with
  | some contents =>
    match dec_cli_config contents with
    | some config => config
    | none => CliConfig.default
  | none => CliConfig.default

/-! ## Supporting lemmas -/

theorem starts_with_refl (s : String) : starts_with s s = true := by
  unfold starts_with
  induction s.data with
  | nil => rfl
  | cons a tl ih => simp [List.isPrefixOf, ih]

theorem find_unique_of_filter_eq {typed c : String} {l : List String}
    (h : l.filter (fun cand => starts_with cand typed) = [c]) :
    find_unique_command typed l = some c := by
  unfold find_unique_command
  rw [h]
  rfl

theorem find_unique_of_length_ne {typed : String} {l : List String}
    (h : (l.filter (fun cand => starts_with cand typed)).length ≠ 1) :
    find_unique_command typed l = none := by
  unfold find_unique_command
  simp only [if_neg h]

theorem filter_eq_singleton_of_unique {c : String} {l : List String}
    (hmem : c ∈ l) (hnd : l.Nodup)
    (huniq : ∀ d ∈ l, starts_with d c = true → d = c) :
    l.filter (fun cand => starts_with cand c) = [c] := by
  induction l with
  | nil => cases hmem
  | cons a tl ih =>
    rcases List.mem_cons.mp hmem with rfl | hmem2
    · have hpa : starts_with c c = true := starts_with_refl c
      have hrest : tl.filter (fun cand => starts_with cand c) = [] := by
        rw [List.filter_eq_nil_iff]
        intro d hd hpd
        have : d = c := huniq d (List.mem_cons_of_mem _ hd) hpd
        subst this
        exact absurd hd (List.nodup_cons.mp hnd).1
      simp [List.filter_cons, hpa, hrest]
    · have hpa : starts_with a c = false := by
        by_contra hne
        have : starts_with a c = true := by
          revert hne; cases starts_with a c <;> simp
        have : a = c := huniq a (List.mem_cons_self a tl) this
        subst this
        exact absurd hmem2 (List.nodup_cons.mp hnd).1
      have := ih hmem2 (List.nodup_cons.mp hnd).2
        (fun d hd hpd => huniq d (List.mem_cons_of_mem _ hd) hpd)
      simp [List.filter_cons, hpa, this]

theorem find_unique_perm {typed : String} {l l' : List String}
    (h : l.Perm l') :
    find_unique_command typed l = find_unique_command typed l' := by
  have hp : (l.filter (fun cand => starts_with cand typed)).Perm
      (l'.filter (fun cand => starts_with cand typed)) := h.filter _
  by_cases hlen : (l.filter (fun cand => starts_with cand typed)).length = 1
  · obtain ⟨a, ha⟩ := List.length_eq_one.mp hlen
    rw [ha] at hp
    have ha' := List.perm_singleton.mp hp.symm
    rw [find_unique_of_filter_eq ha, find_unique_of_filter_eq ha']
  · have hlen' : (l'.filter (fun cand => starts_with cand typed)).length ≠ 1 := by
      rw [← hp.length_eq]; exact hlen
    rw [find_unique_of_length_ne hlen, find_unique_of_length_ne hlen']

/-- The full-name resolution property settled for claim C1 (amended form):
resolving a registered full command name `C` against mode `M`'s visible
set yields `some C` exactly when `C` is in `M`'s allow-list; otherwise
the result is `none`, except that the full name `"router"` resolves to
`some "router-id"` where `"router-id"` is visible and `"router"` is not. -/
def resolve_full_name_spec (M : Mode) (C : String) : Prop :=
  (find_unique_command C (get_mode_commands registry_keys M) = some C ↔
    mode_filter M C = true) ∧
  (mode_filter M C = false →
    (find_unique_command C (get_mode_commands registry_keys M) = none ∨
     (C = "router" ∧
      find_unique_command C (get_mode_commands registry_keys M) =
        some "router-id")))

instance (M : Mode) (C : String) : Decidable (resolve_full_name_spec M C) := by
  unfold resolve_full_name_spec
  infer_instance

/-! ## The claims -/

/-- C1 (counterexample): the registered command name `"router"` is not in
`RouterConfigMode`'s allow-list, yet resolving it there returns
`some "router-id"` rather than `none` — the full prefix match leaks a
command into a mode absent from its allow-list. -/
theorem c1_counterexample :
    "router" ∈ registry_keys ∧
    mode_filter .RouterConfigMode "router" = false ∧
    find_unique_command "router"
      (get_mode_commands registry_keys .RouterConfigMode) =
      some "router-id" := by
  decide

/-- C1 (amended): for every mode `M` and registered command name `C`,
resolving `C` against `M`'s visible set returns `some C` iff `C` is in
`M`'s allow-list; when `C` is not in the allow-list the result is `none`
— except for the single leak `C = "router"`, which resolves to
`some "router-id"` (this happens in `RouterConfigMode`, the one mode
whose allow-list has `"router-id"` without `"router"`). -/
theorem c1_resolution_partitions (M : Mode) (C : String)
    (hC : C ∈ registry_keys) : resolve_full_name_spec M C := by
  cases M with
  | UserMode =>
    have h : ∀ D ∈ registry_keys, resolve_full_name_spec .UserMode D := by
      decide
    exact h C hC
  | PrivilegedMode =>
    have h : ∀ D ∈ registry_keys,
        resolve_full_name_spec .PrivilegedMode D := by decide
    exact h C hC
  | ConfigMode =>
    have h : ∀ D ∈ registry_keys, resolve_full_name_spec .ConfigMode D := by
      decide
    exact h C hC
  | InterfaceMode =>
    have h : ∀ D ∈ registry_keys,
        resolve_full_name_spec .InterfaceMode D := by decide
    exact h C hC
  | VlanMode =>
    have h : ∀ D ∈ registry_keys, resolve_full_name_spec .VlanMode D := by
      decide
    exact h C hC
  | RouterConfigMode =>
    have h : ∀ D ∈ registry_keys,
        resolve_full_name_spec .RouterConfigMode D := by decide
    exact h C hC
  | ConfigStdNaclMode s =>
    have e : resolve_full_name_spec (.ConfigStdNaclMode s) C =
        resolve_full_name_spec (.ConfigStdNaclMode "default") C := rfl
    rw [e]
    have h : ∀ D ∈ registry_keys,
        resolve_full_name_spec (.ConfigStdNaclMode "default") D := by decide
    exact h C hC
  | ConfigExtNaclMode s =>
    have e : resolve_full_name_spec (.ConfigExtNaclMode s) C =
        resolve_full_name_spec (.ConfigExtNaclMode "default") C := rfl
    rw [e]
    have h : ∀ D ∈ registry_keys,
        resolve_full_name_spec (.ConfigExtNaclMode "default") D := by decide
    exact h C hC

/-- C1 (witness): the amended theorem applied at `UserMode` and
`"enable"`. -/
theorem c1_resolution_partitions_witness :
    resolve_full_name_spec .UserMode "enable" :=
  c1_resolution_partitions .UserMode "enable" (by decide)

/-- C2: the unique-prefix resolver returns the sole candidate starting
with the typed token when exactly one exists, `none` on zero or several
matches, its result does not depend on the ordering of the candidate
list, and a complete name present in a duplicate-free candidate list
with no other candidate starting with it resolves to itself —
`find_unique_subcommand` is the same function. -/
theorem c2_unique_prefix_resolution :
    (∀ typed c : String, ∀ l : List String,
      l.filter (fun cand => starts_with cand typed) = [c] →
      find_unique_command typed l = some c) ∧
    (∀ typed : String, ∀ l : List String,
      (l.filter (fun cand => starts_with cand typed)).length ≠ 1 →
      find_unique_command typed l = none) ∧
    (∀ typed : String, ∀ l l' : List String, l.Perm l' →
      find_unique_command typed l = find_unique_command typed l') ∧
    (∀ c : String, ∀ l : List String, c ∈ l → l.Nodup →
      (∀ d ∈ l, starts_with d c = true → d = c) →
      find_unique_command c l = some c) ∧
    (∀ typed : String, ∀ l : List String,
      find_unique_subcommand typed l = find_unique_command typed l) := by
  refine ⟨?_, ?_, ?_, ?_, ?_⟩
  · intro typed c l h
    exact find_unique_of_filter_eq h
  · intro typed l h
    exact find_unique_of_length_ne h
  · intro typed l l' h
    exact find_unique_perm h
  · intro c l hmem hnd huniq
    exact find_unique_of_filter_eq (filter_eq_singleton_of_unique hmem hnd huniq)
  · intro typed l
    rfl

/-- The key list used by the mode-visibility claims agrees with the key
set of the full registry. -/
theorem command_registry_keys :
    command_registry.map Prod.fst = registry_keys := by decide

/-- The dispatcher on a non-help input whose tokenisation is known. -/
theorem execute_command_outcome_exec {commands : List (String × CommandInfo)}
    {input : String} {mode : Mode} {cmd_tok : String} {rest : List String}
    (hq : ends_with_char (trim input) '?' = false)
    (htok : split_whitespace (trim input) = cmd_tok :: rest) :
    execute_command_outcome commands input mode =
      exec_path commands mode cmd_tok rest := by
  unfold execute_command_outcome
  simp only [hq, if_neg Bool.false_ne_true, Bool.false_eq_true, if_false, htok]

/-- The dispatcher on a help input. -/
theorem execute_command_outcome_help {commands : List (String × CommandInfo)}
    {input : String} {mode : Mode}
    (hq : ends_with_char (trim input) '?' = true) :
    execute_command_outcome commands input mode = .help := by
  unfold execute_command_outcome
  simp only [hq, if_true]

/-- `exec_path` never reaches the out-of-bounds access: only the empty
token list does. -/
theorem exec_path_ne_indexPanic (commands : List (String × CommandInfo))
    (mode : Mode) (cmd_tok : String) (rest : List String) :
    exec_path commands mode cmd_tok rest ≠ .indexPanic := by
  unfold exec_path
  repeat' split
  all_goals simp

/-- C3: a trimmed input ending in `?` takes only the help path — no
callback runs and the session state (context and every global store) is
returned unchanged. -/
theorem c3_help_path_pure {σ : Type} (commands : List (String × CommandInfo))
    (exec : String → List String → σ → σ) (mode_of : σ → Mode)
    (input : String) (s : σ)
    (h : ends_with_char (trim input) '?' = true) :
    execute_command_step commands exec mode_of input s = (s, .help) := by
  unfold execute_command_step
  rw [execute_command_outcome_help h]

/-- C3 (witness): `"show ?"` against the real registry, with a callback
semantics that would change the state if it ran. -/
theorem c3_help_path_pure_witness :
    execute_command_step command_registry (fun _ _ _ => (42 : Nat))
      (fun _ => Mode.PrivilegedMode) "show ?" 0 = (0, .help) :=
  c3_help_path_pure command_registry (fun _ _ _ => (42 : Nat))
    (fun _ => Mode.PrivilegedMode) "show ?" 0 (by decide)

/-- C4: for a resolved command whose `suggestions1` list is present and
non-empty, the dispatcher requires at least one argument token; a single
argument token is resolved by unique prefix against `suggestions1` and
the callback receives exactly the resolved token (or nothing runs, on
zero/ambiguous matches); two or more argument tokens are passed through
verbatim with no subcommand matching. -/
theorem c4_suggestions1_discipline (commands : List (String × CommandInfo))
    (mode : Mode) (input : String) (cmd_tok cmd_key : String)
    (rest : List String) (cmd : CommandInfo) (suggestions : List String)
    (hq : ends_with_char (trim input) '?' = false)
    (htok : split_whitespace (trim input) = cmd_tok :: rest)
    (hres : find_unique_command cmd_tok
      (get_mode_commands (commands.map Prod.fst) mode) = some cmd_key)
    (hcmd : commands.lookup cmd_key = some cmd)
    (hs : cmd.suggestions1 = some suggestions)
    (hne : suggestions ≠ []) :
    (rest = [] →
      execute_command_outcome commands input mode = .incomplete cmd_key) ∧
    (∀ tok m, rest = [tok] → find_unique_subcommand tok suggestions = some m →
      execute_command_outcome commands input mode = .invoke cmd_key [m]) ∧
    (∀ tok, rest = [tok] → find_unique_subcommand tok suggestions = none →
      execute_command_outcome commands input mode = .badSub cmd_key tok) ∧
    (2 ≤ rest.length →
      execute_command_outcome commands input mode = .invoke cmd_key rest) := by
  have hout := @execute_command_outcome_exec commands input mode cmd_tok
    rest hq htok
  have hempty : suggestions.isEmpty = false := by
    cases suggestions with
    | nil => exact absurd rfl hne
    | cons a tl => rfl
  refine ⟨?_, ?_, ?_, ?_⟩
  · intro hrest
    subst hrest
    rw [hout]
    unfold exec_path
    simp only [hres, hcmd, hs]
  · intro tok m hrest hsub
    subst hrest
    rw [hout]
    unfold exec_path
    simp only [hres, hcmd, hs, hempty, Bool.false_eq_true, if_false, hsub]
  · intro tok hrest hsub
    subst hrest
    rw [hout]
    unfold exec_path
    simp only [hres, hcmd, hs, hempty, Bool.false_eq_true, if_false, hsub]
  · intro hlen
    rw [hout]
    unfold exec_path
    simp only [hres, hcmd, hs]
    match rest, hlen with
    | a :: b :: tl, _ => rfl

/-- C4 (witness): the three reachable shapes at concrete inputs — `"ip"`
alone is incomplete, `"ip ro"` resolves the subcommand prefix `ro` to
`route`, and `"ip route 10.0.0.0 255.255.255.0 192.168.1.1"` passes the
four argument tokens through verbatim. -/
theorem c4_suggestions1_discipline_witness :
    execute_command_outcome command_registry "ip" .ConfigMode =
      .incomplete "ip" ∧
    execute_command_outcome command_registry "ip ro" .ConfigMode =
      .invoke "ip" ["route"] ∧
    execute_command_outcome command_registry
      "ip route 10.0.0.0 255.255.255.0 192.168.1.1" .ConfigMode =
      .invoke "ip" ["route", "10.0.0.0", "255.255.255.0", "192.168.1.1"] := by
  refine ⟨?_, ?_, ?_⟩
  · exact (c4_suggestions1_discipline command_registry .ConfigMode "ip"
      "ip" "ip" [] ⟨"ip", some ["address", "ospf", "route", "domain-name",
        "access-list"]⟩ ["address", "ospf", "route", "domain-name",
        "access-list"] (by decide) (by decide) (by decide) (by decide)
      (by decide) (by decide)).1 rfl
  · exact (c4_suggestions1_discipline command_registry .ConfigMode "ip ro"
      "ip" "ip" ["ro"] ⟨"ip", some ["address", "ospf", "route",
        "domain-name", "access-list"]⟩ ["address", "ospf", "route",
        "domain-name", "access-list"] (by decide) (by decide) (by decide)
      (by decide) (by decide) (by decide)).2.1 "ro" "route" rfl (by decide)
  · exact (c4_suggestions1_discipline command_registry .ConfigMode
      "ip route 10.0.0.0 255.255.255.0 192.168.1.1" "ip" "ip"
      ["route", "10.0.0.0", "255.255.255.0", "192.168.1.1"]
      ⟨"ip", some ["address", "ospf", "route", "domain-name",
        "access-list"]⟩ ["address", "ospf", "route", "domain-name",
        "access-list"] (by decide) (by decide) (by decide) (by decide)
      (by decide) (by decide)).2.2.2 (by decide)

/-- The association-list form of the parent map agrees with its
functional form (validating `parent_map_get` against the eight
`parent_map.insert` calls of `ModeHierarchy::new`). -/
theorem parent_map_lookup_eq (m : Mode) :
    parent_map.lookup m = parent_map_get m := by
  cases m with
  | ConfigStdNaclMode s =>
    by_cases h : s = "default"
    · subst h; decide
    · have hd : (Mode.ConfigStdNaclMode s ==
          Mode.ConfigStdNaclMode "default") = false :=
        beq_eq_false_iff_ne.mpr (by simp [h])
      simp only [parent_map, List.lookup,
        show (Mode.ConfigStdNaclMode s == Mode.UserMode) = false from rfl,
        show (Mode.ConfigStdNaclMode s == Mode.PrivilegedMode) = false from
          rfl,
        show (Mode.ConfigStdNaclMode s == Mode.ConfigMode) = false from rfl,
        show (Mode.ConfigStdNaclMode s == Mode.InterfaceMode) = false from
          rfl,
        show (Mode.ConfigStdNaclMode s == Mode.VlanMode) = false from rfl,
        show (Mode.ConfigStdNaclMode s == Mode.RouterConfigMode) = false from
          rfl,
        hd,
        show (Mode.ConfigStdNaclMode s ==
          Mode.ConfigExtNaclMode "default") = false from rfl,
        parent_map_get, if_neg h]
  | ConfigExtNaclMode s =>
    by_cases h : s = "default"
    · subst h; decide
    · have hd : (Mode.ConfigExtNaclMode s ==
          Mode.ConfigExtNaclMode "default") = false :=
        beq_eq_false_iff_ne.mpr (by simp [h])
      simp only [parent_map, List.lookup,
        show (Mode.ConfigExtNaclMode s == Mode.UserMode) = false from rfl,
        show (Mode.ConfigExtNaclMode s == Mode.PrivilegedMode) = false from
          rfl,
        show (Mode.ConfigExtNaclMode s == Mode.ConfigMode) = false from rfl,
        show (Mode.ConfigExtNaclMode s == Mode.InterfaceMode) = false from
          rfl,
        show (Mode.ConfigExtNaclMode s == Mode.VlanMode) = false from rfl,
        show (Mode.ConfigExtNaclMode s == Mode.RouterConfigMode) = false from
          rfl,
        show (Mode.ConfigExtNaclMode s ==
          Mode.ConfigStdNaclMode "default") = false from rfl,
        hd, parent_map_get, if_neg h]
  | _ => decide

/-- Every walk chain starts at its mode and continues with the parent's
chain exactly when the mode is a key of the parent map with a parent. -/
theorem walk_chain_cons (m : Mode) :
    walk_chain m = m :: (match parent_map_get m with
      | some (some par) => walk_chain par
      | _ => []) := by
  cases m with
  | ConfigStdNaclMode s =>
    by_cases h : s = "default" <;> simp [walk_chain, parent_map_get, h]
  | ConfigExtNaclMode s =>
    by_cases h : s = "default" <;> simp [walk_chain, parent_map_get, h]
  | _ => simp [walk_chain, parent_map_get]

theorem walk_chain_ne_nil (m : Mode) : walk_chain m ≠ [] := by
  rw [walk_chain_cons]
  simp

theorem walk_chain_length_le (m : Mode) : (walk_chain m).length ≤ 4 := by
  cases m with
  | ConfigStdNaclMode s =>
    by_cases h : s = "default" <;> simp [walk_chain, h]
  | ConfigExtNaclMode s =>
    by_cases h : s = "default" <;> simp [walk_chain, h]
  | _ => simp [walk_chain]

/-- With enough fuel for the chain the walk computes the first chain
mode satisfying `walk_pred`. -/
theorem walkup_aux_eq_find (dyn_keys : List String)
    (permissions : List (String × List Mode)) (command : String) :
    ∀ (fuel : Nat) (m : Mode), (walk_chain m).length ≤ fuel →
    walkup_aux dyn_keys permissions fuel m command =
      (walk_chain m).find? (walk_pred dyn_keys permissions command) := by
  intro fuel
  induction fuel with
  | zero =>
    intro m hm
    exact absurd (List.length_eq_zero.mp (Nat.le_zero.mp hm))
      (walk_chain_ne_nil m)
  | succ fuel ih =>
    intro m hm
    rw [walkup_aux]
    by_cases hp : walk_pred dyn_keys permissions command m = true
    · rw [if_pos hp]
      conv_rhs => rw [walk_chain_cons m]
      rw [List.find?_cons_of_pos _ hp]
    · rw [if_neg hp]
      conv_rhs => rw [walk_chain_cons m]
      rw [List.find?_cons_of_neg _ (by simpa using hp)]
      have hchain := walk_chain_cons m
      cases hpm : parent_map_get m with
      | none =>
        rw [hpm] at hchain
        simp
      | some o =>
        cases o with
        | none =>
          rw [hpm] at hchain
          simp
        | some par =>
          rw [hpm] at hchain
          have hlen : (walk_chain par).length ≤ fuel := by
            rw [hchain] at hm
            simpa using hm
          simpa using ih par hlen

/-- C6 (counterexample): from the ACL mode with payload `"100"` the walk
returns `none` for `"hostname"`, although `"hostname"` is legal in the
ancestor `ConfigMode` (and not in the ACL mode itself): the walk never
reaches `ConfigMode` because `ConfigStdNaclMode("100")` is not a key of
`parent_map` — only the `"default"` payload was inserted. -/
theorem c6_counterexample :
    walkup_find_command [] [] (.ConfigStdNaclMode "100") "hostname" =
      none ∧
    is_command_allowed_in_mode "hostname" .ConfigMode = true ∧
    is_command_allowed_in_mode "hostname" (.ConfigStdNaclMode "100") =
      false ∧
    walkup_find_command [] [] (.ConfigStdNaclMode "default") "hostname" =
      some .ConfigMode := by
  decide

/-- C6 (amended): `walkup_find_command` returns the nearest mode of the
chain it actually walks — the ancestor chain for modes keyed in
`parent_map` (all modes, with ACL payloads `"default"`), but only the
mode itself for an ACL mode with any other payload — on which the
legality predicate or dynamic-set membership holds, and `none` when the
predicate fails on that whole chain; the walk is deterministic and any
fuel of at least the tree depth 4 computes it. -/
theorem c6_walkup_nearest_on_chain (dyn_keys : List String)
    (permissions : List (String × List Mode)) (M : Mode)
    (command : String) :
    walkup_find_command dyn_keys permissions M command =
      (walk_chain M).find? (walk_pred dyn_keys permissions command) ∧
    (∀ fuel, 4 ≤ fuel →
      walkup_aux dyn_keys permissions fuel M command =
        walkup_find_command dyn_keys permissions M command) := by
  constructor
  · exact walkup_aux_eq_find dyn_keys permissions command 4 M
      (walk_chain_length_le M)
  · intro fuel hf
    rw [walkup_aux_eq_find dyn_keys permissions command fuel M
      (le_trans (walk_chain_length_le M) hf)]
    exact (walkup_aux_eq_find dyn_keys permissions command 4 M
      (walk_chain_length_le M)).symm

/-- C6 (witness): from `InterfaceMode`, `"hostname"` walks up to
`ConfigMode`; the fuel bound applied at 9. -/
theorem c6_walkup_nearest_on_chain_witness :
    walkup_find_command [] [] .InterfaceMode "hostname" =
      (walk_chain .InterfaceMode).find? (walk_pred [] [] "hostname") ∧
    walkup_aux [] [] 9 .InterfaceMode "hostname" =
      walkup_find_command [] [] .InterfaceMode "hostname" :=
  ⟨(c6_walkup_nearest_on_chain [] [] .InterfaceMode "hostname").1,
   (c6_walkup_nearest_on_chain [] [] .InterfaceMode "hostname").2 9
     (by decide)⟩

theorem dec_opt_str_enc (o : Option String) :
    dec_opt dec_str (enc_opt Json.str o) = some o := by
  cases o <;> rfl

theorem dec_opt_num_enc (o : Option Nat) :
    dec_opt dec_num (enc_opt Json.num o) = some o := by
  cases o <;> rfl

theorem mapM_map_of_roundtrip {α : Type} (f : α → Json)
    (g : Json → Option α) (h : ∀ x, g (f x) = some x) :
    ∀ l : List α, (l.map f).mapM g = some l := by
  intro l
  induction l with
  | nil => rfl
  | cons a tl ih => rw [List.map_cons, List.mapM_cons, h a, ih]; rfl

theorem dec_list_enc_list {α : Type} (f : α → Json) (g : Json → Option α)
    (h : ∀ x, g (f x) = some x) (l : List α) :
    dec_list g (enc_list f l) = some l :=
  mapM_map_of_roundtrip f g h l

theorem dec_opt_list_str_enc (o : Option (List String)) :
    dec_opt (dec_list dec_str) (enc_opt (enc_list Json.str) o) = some o := by
  cases o with
  | none => rfl
  | some l =>
    show (dec_list dec_str (enc_list Json.str l)).map some = some (some l)
    rw [dec_list_enc_list Json.str dec_str (fun _ => rfl) l]
    rfl

theorem smap_roundtrip {α : Type} (f : α → Json) (g : Json → Option α)
    (h : ∀ x, g (f x) = some x) :
    ∀ m : List (String × α), dec_smap g (enc_smap f m) = some m := by
  intro m
  induction m with
  | nil => rfl
  | cons p tl ih =>
    obtain ⟨k, v⟩ := p
    show ((k, f v) :: tl.map (fun p => (p.1, f p.2))).mapM
        (fun p => (g p.2).map (fun w => (p.1, w))) = some ((k, v) :: tl)
    rw [List.mapM_cons]
    have ihm : (tl.map (fun p => (p.1, f p.2))).mapM
        (fun p => (g p.2).map (fun w => (p.1, w))) = some tl := ih
    simp only [h v, ihm, Option.map_some]
    rfl

theorem smap_str_roundtrip (m : List (String × String)) :
    dec_smap dec_str (enc_smap Json.str m) = some m :=
  smap_roundtrip Json.str dec_str (fun _ => rfl) m

theorem smap_list_str_roundtrip (m : List (String × List String)) :
    dec_smap (dec_list dec_str) (enc_smap (enc_list Json.str) m) = some m :=
  smap_roundtrip (enc_list Json.str) (dec_list dec_str)
    (fun l => dec_list_enc_list Json.str dec_str (fun _ => rfl) l) m

theorem dec_enc_dynamic_map_entry (e : DynamicMapEntry) :
    dec_dynamic_map_entry (enc_dynamic_map_entry e) = some e := rfl

theorem smap_dyn_roundtrip (m : List (String × DynamicMapEntry)) :
    dec_smap dec_dynamic_map_entry (enc_smap enc_dynamic_map_entry m) =
      some m :=
  smap_roundtrip enc_dynamic_map_entry dec_dynamic_map_entry
    dec_enc_dynamic_map_entry m

theorem dec_enc_ipsec_lifetime (e : IPSecLifetime) :
    dec_ipsec_lifetime (enc_ipsec_lifetime e) = some e := by
  obtain ⟨s, k⟩ := e
  cases s <;> cases k <;> rfl

theorem dec_enc_crypto_map_entry (e : CryptoMapEntry) :
    dec_crypto_map_entry (enc_crypto_map_entry e) = some e := by
  obtain ⟨n, q, i⟩ := e
  cases i <;> rfl

theorem smap_crypto_map_roundtrip (m : List (String × CryptoMapEntry)) :
    dec_smap dec_crypto_map_entry (enc_smap enc_crypto_map_entry m) =
      some m :=
  smap_roundtrip enc_crypto_map_entry dec_crypto_map_entry
    dec_enc_crypto_map_entry m

/-- Decoding inverts encoding on every `CliConfig` aggregate. -/
theorem dec_enc_cli_config (c : CliConfig) :
    dec_cli_config (enc_cli_config c) = some c := by
  obtain ⟨v1, v2, v3, v4, v5, v6, v7, v8, v9, v10, v11, v12, v13, v14,
    v15, v16, v17, v18, v19, v20, v21, v22, v23, v24, v25⟩ := c
  simp [enc_cli_config, dec_cli_config, dec_opt_field, List.lookup,
    dec_opt_str_enc, dec_opt_num_enc, dec_opt_list_str_enc,
    smap_str_roundtrip, smap_list_str_roundtrip, smap_dyn_roundtrip,
    smap_crypto_map_roundtrip, dec_enc_ipsec_lifetime, dec_str, dec_bool]

/-- C7: saving the configuration aggregate and loading it back
reproduces an equal aggregate (all fields, hence in particular hostname,
domain name, encrypted password/secret and the tunnel fields); and
`load_config` never fails — a missing/unreadable file and an
undecodable document both yield `CliConfig::default()`. -/
theorem c7_save_load_roundtrip :
    (∀ c : CliConfig, load_config (some (save_config c)) = c) ∧
    (∀ j : Json, dec_cli_config j = none →
      load_config (some j) = CliConfig.default) ∧
    load_config none = CliConfig.default := by
  refine ⟨?_, ?_, rfl⟩
  · intro c
    simp [load_config, save_config, dec_enc_cli_config]
  · intro j h
    simp [load_config, h]

/-- A configuration with the claim's fields set: hostname `R1`, domain
name, encrypted password and secret, and tunnel mode/source/destination,
everything else as in `CliConfig.default`. -/
def sample_config : CliConfig :=
  CliConfig.mk none none "R1" none none (some "ipsec") (some "g0/0")
    (some "10.0.0.2") none none none none (some "5f4dcc3b")
    (some "e10adc39") false (some "example.com") none [] [] [] none
    IPSecLifetime.default [] [] []

/-- C7 (witness): the round trip applied to a configuration with set
fields, and the fallback applied to the undecodable document `null`. -/
theorem c7_save_load_roundtrip_witness :
    load_config (some (save_config sample_config)) = sample_config ∧
    load_config (some Json.null) = CliConfig.default :=
  ⟨c7_save_load_roundtrip.1 sample_config,
   c7_save_load_roundtrip.2.1 Json.null rfl⟩

/-- C5 (the code path violating the claim): the dispatcher hands
`"ip route 10.0.0.0 badmask 192.168.1.1"` in `ConfigMode` to the `ip`
callback verbatim, and the route arm then aborts through
`.expect("Invalid IP address format")` on the malformed netmask instead
of returning `Err`; the well-formed variant of the same command returns
`Ok` and updates the route table. -/
theorem c5_ip_route_panics_on_malformed_ip :
    execute_command_outcome command_registry
      "ip route 10.0.0.0 badmask 192.168.1.1" .ConfigMode =
      .invoke "ip" ["route", "10.0.0.0", "badmask", "192.168.1.1"] ∧
    ip_route_arm ["route", "10.0.0.0", "badmask", "192.168.1.1"] [] =
      ([], .panicked "Invalid IP address format") ∧
    ip_route_arm ["route", "10.0.0.0", "255.255.255.0", "192.168.1.1"] [] =
      ([("10.0.0.0", (⟨255, 255, 255, 0⟩, "192.168.1.1"))], .ok) := by
  refine ⟨by decide, by decide, by decide⟩

/-- C8: with the context constructed directly in `InterfaceMode` and no
interface selected, `shutdown` fails with the explicit
no-interface-selected error and returns the context (hence the mode)
and both stores unchanged. -/
theorem c8_shutdown_no_interface_selected (args : List String)
    (context : CliContextM) (ip_address_state : List (String × (Ipv4 × Ipv4)))
    (status_map : List (String × Bool))
    (hm : context.current_mode = .InterfaceMode)
    (hs : context.selected_interface = none) :
    shutdown_execute args context ip_address_state status_map =
      (.err "No interface selected. Use the 'interface' command first.",
       context, ip_address_state, status_map) := by
  obtain ⟨cm, pr, si⟩ := context
  cases hm
  cases hs
  rfl

/-- C8 (witness): the theorem applied at a directly-constructed
`InterfaceMode` context with no selected interface. -/
theorem c8_shutdown_no_interface_selected_witness :
    shutdown_execute [] ⟨.InterfaceMode, "SEM(config-if)#", none⟩ [] [] =
      (.err "No interface selected. Use the 'interface' command first.",
       ⟨.InterfaceMode, "SEM(config-if)#", none⟩, [], []) :=
  c8_shutdown_no_interface_selected []
    ⟨.InterfaceMode, "SEM(config-if)#", none⟩ [] [] rfl rfl

/-- C9: the REPL's dispatch consults only the static registry and the
current mode — two program states differing arbitrarily in the dynamic
registry (`DYNAMIC_COMMANDS` key set and `MODE_PERMISSIONS`) produce
identical actions for every input line, so dynamically-registered
commands are unreachable from the main loop. -/
theorem c9_dynamic_registry_unreachable
    (static_commands : List (String × CommandInfo))
    (d1 d2 : List String) (p1 p2 : List (String × List Mode))
    (mode : Mode) (buffer : String) :
    repl_line ⟨static_commands, d1, p1, mode⟩ buffer =
      repl_line ⟨static_commands, d2, p2, mode⟩ buffer := rfl

/-- C10: with at least one token after `?`-stripping the dispatcher
never reaches the out-of-bounds `parts[0]` access; an input that trims
to empty and does not end in `?` does reach it (`indexPanic`); and the
driver shields the public interface only by skipping lines that trim to
empty. -/
theorem c10_empty_input_out_of_bounds :
    (∀ commands : List (String × CommandInfo), ∀ mode : Mode,
     ∀ input cmd_tok : String, ∀ rest : List String,
      split_whitespace
        (if ends_with_char (trim input) '?' = true then
          trim_end_matches_char (trim input) '?' else trim input) =
        cmd_tok :: rest →
      execute_command_outcome commands input mode ≠ .indexPanic) ∧
    (∀ commands : List (String × CommandInfo), ∀ mode : Mode,
     ∀ input : String, trim input = "" →
      ends_with_char (trim input) '?' = false →
      execute_command_outcome commands input mode = .indexPanic) ∧
    (∀ ps : ProgramState, ∀ buffer : String, trim buffer = "" →
      repl_line ps buffer = .skip) := by
  refine ⟨?_, ?_, ?_⟩
  · intro commands mode input cmd_tok rest htok
    by_cases hq : ends_with_char (trim input) '?' = true
    · rw [execute_command_outcome_help hq]
      simp
    · rw [execute_command_outcome_exec (Bool.not_eq_true _ ▸ hq)
        (by simpa [hq] using htok)]
      exact exec_path_ne_indexPanic commands mode cmd_tok rest
  · intro commands mode input htrim hq
    unfold execute_command_outcome
    simp only [hq, Bool.false_eq_true, if_false, htrim]
    rfl
  · intro ps buffer htrim
    unfold repl_line
    rw [htrim]
    rfl

/-- C10 (witness): the theorem applied at the one-token input `"exit"`,
at the all-whitespace input `"   "` (where the dispatcher hits the
out-of-bounds access), and at the driver skipping `"   "`. -/
theorem c10_empty_input_out_of_bounds_witness :
    execute_command_outcome command_registry "exit" .UserMode ≠
      .indexPanic ∧
    execute_command_outcome command_registry "   " .UserMode =
      .indexPanic ∧
    repl_line ⟨command_registry, [], [], .UserMode⟩ "   " = .skip := by
  refine ⟨?_, ?_, ?_⟩
  · exact c10_empty_input_out_of_bounds.1 command_registry .UserMode
      "exit" "exit" [] (by decide)
  · exact c10_empty_input_out_of_bounds.2.1 command_registry .UserMode
      "   " (by decide) (by decide)
  · exact c10_empty_input_out_of_bounds.2.2
      ⟨command_registry, [], [], .UserMode⟩ "   " (by decide)

/-- C2 (witness): the conjuncts applied at concrete inputs — `"en"`
against UserMode's visible commands, `"c"` ambiguous between `clear` and
`configure` in PrivilegedMode, a permutation of that set, and the
complete name `"show"`. -/
theorem c2_unique_prefix_resolution_witness :
    find_unique_command "en" ["enable", "ping", "help", "show"] =
      some "enable" ∧
    find_unique_command "c" ["configure", "clear", "copy"] = none ∧
    find_unique_command "c" ["clear", "copy", "configure"] =
      find_unique_command "c" ["configure", "clear", "copy"] ∧
    find_unique_command "show" ["show", "shutdown", "exit"] = some "show" := by
  refine ⟨?_, ?_, ?_, ?_⟩
  · exact c2_unique_prefix_resolution.1 "en" "enable"
      ["enable", "ping", "help", "show"] (by decide)
  · exact c2_unique_prefix_resolution.2.1 "c" ["configure", "clear", "copy"]
      (by decide)
  · exact c2_unique_prefix_resolution.2.2.1 "c"
      ["clear", "copy", "configure"] ["configure", "clear", "copy"]
      (by decide)
  · exact c2_unique_prefix_resolution.2.2.2.1 "show"
      ["show", "shutdown", "exit"] (by decide) (by decide) (by decide)

end PnfBox
